import Mathlib

/-!
Verification of the owl-squad email finder/verifier against its specification.

Shallow embedding of `src/verifier.py`, `src/main.py` and `src/finder.py`:
pure Lean functions mirror the Python functions; the effectful parts
(DNS resolution, the SMTP transport, the random decoy local-parts) are
passed in explicitly as oracles, and Python exceptions that escape a
function are modelled with `Option`/`Except`.  Latencies and scores
(Python floats whose uses here are exact decimal arithmetic and order
comparisons) are modelled as rationals.
-/

namespace OwlSquad

/-! ## String utilities on `List Char`

Core `String` functions such as `String.toLower` are implemented with
position loops that the kernel cannot reduce, so the embedding works on
`List Char` with its own executable helpers. -/

/-- Lowercase every character (Python `str.lower` on the ASCII inputs used here). -/
def lowerL (l : List Char) : List Char := l.map Char.toLower

/-- Lowercase a string. -/
def pyLower (s : String) : String := (lowerL s.toList).asString

/-- Containment test: does `sub` occur contiguously inside `s`?  Mirrors Python `sub in s`. -/
def containsSub (s sub : List Char) : Bool :=
  match s with
  | [] => sub.isEmpty
  | _ :: rest => sub.isPrefixOf s || containsSub rest sub

/-- Containment test on strings (Python `sub in s`). -/
def strContains (s sub : String) : Bool := containsSub s.toList sub.toList

/-- Suffix test (Python `s.endswith(suf)`). -/
def pyEndsWith (s suf : String) : Bool := suf.toList.isSuffixOf s.toList

/-- Prefix test (Python `s.startswith(pre)`). -/
def pyStartsWith (s pre : String) : Bool := pre.toList.isPrefixOf s.toList

/-- Fuel-driven worker for `removeAll`; the fuel is only there to make
the recursion structural (the kernel cannot reduce well-founded
recursion), and every call supplies `fuel = l.length`, which always
suffices because each step consumes at least one character. -/
def removeAllAux (pat : List Char) : ℕ → List Char → List Char
  | _, [] => []
  | 0, l => l
  | fuel + 1, c :: rest =>
    if pat.isPrefixOf (c :: rest) ∧ pat ≠ [] then
      removeAllAux pat fuel ((c :: rest).drop pat.length)
    else
      c :: removeAllAux pat fuel rest

/-- Remove every occurrence of `pat` from `s`, scanning left to right:
Python `s.replace(pat, "")` for a non-empty `pat`. -/
def removeAll (pat l : List Char) : List Char := removeAllAux pat l.length l

/-- Python `domain.replace("www.", "")`. -/
def stripWWW (s : String) : String := (removeAll "www.".toList s.toList).asString

/-- Split into whitespace-separated words, dropping empty pieces:
Python `s.strip().split()`. -/
def wordsAux : List Char → List Char → List (List Char)
  | [], acc => if acc.isEmpty then [] else [acc.reverse]
  | c :: rest, acc =>
    if c.isWhitespace then
      if acc.isEmpty then wordsAux rest [] else acc.reverse :: wordsAux rest []
    else
      wordsAux rest (c :: acc)

/-- Whitespace split of a string (Python `s.split()` with no argument). -/
def pyWords (s : String) : List String := (wordsAux s.toList []).map List.asString

/-- Everything before the first `'@'` (Python `email.split("@", 1)[0]`). -/
def beforeFirstAt (s : String) : String := (s.toList.takeWhile (· ≠ '@')).asString

/-- Everything after the first `'@'`.  For the strings this is applied to —
candidates that already matched the address pattern, hence contain exactly
one `'@'` — this coincides with Python `email.split("@")[1]` and
`email.split("@", 1)[1]`. -/
def afterFirstAt (s : String) : String := ((s.toList.dropWhile (· ≠ '@')).drop 1).asString

/-- Last 80 characters of a message (Python `m[-80:]`). -/
def last80 (m : String) : String := (m.toList.drop (m.toList.length - 80)).asString

/-! ## Numeric utilities -/

/-- Python `int(...)` on a float/rational value: truncation toward zero. -/
def pyInt (q : ℚ) : ℤ := if 0 ≤ q then ⌊q⌋ else -⌊-q⌋

/-- Maximum of a list of rationals; Python `max(l)` for non-empty `l`
(the `[]` case is never reached: every use is guarded by a non-emptiness test). -/
def listMax : List ℚ → ℚ
  | [] => 0
  | x :: xs => xs.foldl max x

/-- Minimum of a list of rationals; Python `min(l)` for non-empty `l`. -/
def listMin : List ℚ → ℚ
  | [] => 0
  | x :: xs => xs.foldl min x

/-- Arithmetic mean (Python `statistics.mean`), for non-empty input. -/
def listMean (l : List ℚ) : ℚ := l.sum / l.length

/-- First-occurrence deduplication, preserving order:
Python `list(dict.fromkeys(l))`. -/
def pyDedup (l : List String) : List String :=
  l.foldl (fun acc x => if acc.contains x then acc else acc ++ [x]) []

/-- Fuel-driven worker for `chunkList`; structural recursion on the
fuel, which every call instantiates with `l.length` (always enough, as
each chunk consumes at least one element when `n ≠ 0`). -/
def chunkListAux (n : ℕ) : ℕ → List α → List (List α)
  | _, [] => []
  | 0, _ => []
  | fuel + 1, x :: rest =>
    if n = 0 then [] else (x :: rest).take n :: chunkListAux n fuel ((x :: rest).drop n)

/-- Cut a list into consecutive chunks of size `n` (Python
`range(0, len(l), n)` slicing).  `n = 0` raises in Python; it is modelled
as producing no chunks and every call site uses a positive `n`. -/
def chunkList (n : ℕ) (l : List α) : List (List α) := chunkListAux n l.length l

/-! ## Data model -/

/-- One protocol exchange of a probe session: the Python 4-tuple
`(addr, code, msg, latency)` appended to `results` in `smtp_multi_probe`.
`code = none` models Python `None` (a failed recipient check or the
synthetic connect-failure record); `latency = none` occurs only on the
synthetic record. -/
structure ProbeRecord where
  addr : String
  code : Option ℕ
  msg : String
  latency : Option ℚ
deriving DecidableEq

/-- Result dictionary of `analyze_entropy_and_catchall`. -/
structure Analysis where
  entropy : ℕ
  delta : ℤ
  is_catch_all : Bool
  real_code : Option ℕ
  avg_latency : Option ℤ
deriving DecidableEq

/-- Outcome of one `s.rcpt(addr)` call as observed by the probe loop:
the `(code, msg)` pair — `code = none` with `msg` the exception text when
the call raised — together with the measured latency in milliseconds
(always recorded, raise or not). -/
structure RcptOut where
  code : Option ℕ
  msg : String
  latency : ℚ
deriving DecidableEq

/-- Oracle for one SMTP session.  `connect` covers the
connect/helo/mail stage (an `Except.error e` is an exception with text
`e`); `rcpt i addr` is the outcome of the `i`-th recipient check of the
session (the real transport sees the address, so the oracle does too);
`quit` covers the final `s.quit()`. -/
structure Transport where
  connect : Except String Unit
  rcpt : ℕ → String → RcptOut
  quit : Except String Unit

/-- Environment of one `verify_email` call: the DNS resolver oracle
(`Except.error e` is a raised resolver exception with text `e`), the SMTP
transport, and the two random decoy local-parts drawn by
`smtp_multi_probe` for this call. -/
structure Env where
  dns : String → Except String (List String)
  tr : Transport
  d1 : String
  d2 : String

/-- Nested `smtp` dictionary of a verification result. -/
structure SmtpInfo where
  code : Option ℕ
  message : Option String
  latency_ms : Option ℤ
deriving DecidableEq

/-- Nested `details` dictionary of a verification result.  Fields absent
from the Python dictionary at a given point are `none`. -/
structure Details where
  email_type : Option String
  is_free_provider : Option Bool
  is_disposable : Option Bool
  is_role_based : Option Bool
  is_government : Option Bool
  is_catch_all : Option Bool
  reasoning : Option String
deriving DecidableEq

/-- Verification result dictionary built by `verify_email`. -/
structure VerificationResult where
  email : String
  status : String
  deliverable : Bool
  verification_score : ℚ
  mx_provider : String
  mx_records : List String
  smtp : SmtpInfo
  details : Details
deriving DecidableEq

/-- Network side effects of a `verify_email` call, recorded so that
"no network calls issued" is a provable statement. -/
inductive NetEvent where
  | dnsLookup (domain : String)
  | smtpConnect
  | rcptCall (addr : String)
deriving DecidableEq

/-! ## Syntactic address validation

`EMAIL_REGEX = ^[A-Za-z0-9._%+-]+@[A-Za-z0-9.-]+\.[A-Za-z]{2,}$`,
applied with `re.match`.  The character classes contain no `'@'`, so a
match decomposes uniquely at the first `'@'`; the final `[A-Za-z]{2,}`
contains no `'.'`, so the literal dot of the pattern is the last dot of
the domain part. -/

/-- Membership in `[A-Za-z0-9._%+-]` (the local-part class). -/
def isLocalChar (c : Char) : Bool :=
  c.isAlpha || c.isDigit || c = '.' || c = '_' || c = '%' || c = '+' || c = '-'

/-- Membership in `[A-Za-z0-9.-]` (the domain class). -/
def isDomainChar (c : Char) : Bool :=
  c.isAlpha || c.isDigit || c = '.' || c = '-'

/-- Full match of `[A-Za-z0-9.-]+\.[A-Za-z]{2,}` against the part after
the `'@'`. -/
def matchDomainPart (r : List Char) : Bool :=
  let tld := (r.reverse.takeWhile (· ≠ '.')).reverse
  r.all isDomainChar && r.contains '.' && decide (2 ≤ tld.length) &&
    tld.all (·.isAlpha) && decide (tld.length + 2 ≤ r.length)

/-- Full match of the whole pattern against a character list. -/
def matchEmailChars (l : List Char) : Bool :=
  let loc := l.takeWhile isLocalChar
  let rest := l.drop loc.length
  !loc.isEmpty &&
    (match rest with
     | '@' :: dom => matchDomainPart dom
     | _ => false)

/-- Python `EMAIL_REGEX.match(s)` as a Boolean.  The anchor `$` of the
pattern also matches just before a single trailing newline, so one
trailing `'\n'` is stripped before the full match. -/
def emailRegexMatch (s : String) : Bool :=
  let l := s.toList
  let l := if l.getLast? = some '\n' then l.dropLast else l
  matchEmailChars l

/-! ## Static classification tables (`src/verifier.py` CONFIG) -/

def FREE_PROVIDERS : List String :=
  ["gmail.com", "yahoo.com", "outlook.com", "hotmail.com",
   "icloud.com", "aol.com", "zoho.com", "yandex.com"]

def DISPOSABLE_PROVIDERS : List String :=
  ["tempmail.com", "mailinator.com", "guerrillamail.com", "10minutemail.com"]

def ROLE_PREFIXES : List String :=
  ["info", "admin", "sales", "support", "contact", "hr", "help", "team"]

/-- Python `detect_mx_provider`. -/
def detect_mx_provider (mx_host : String) : String :=
  let h := pyLower mx_host
  if strContains h "outlook" || strContains h "protection" then "microsoft365"
  else if strContains h "google" || strContains h "aspmx" then "google"
  else if strContains h "pphosted" then "proofpoint"
  else if strContains h "mimecast" then "mimecast"
  else if strContains h "barracuda" then "barracuda"
  else "unknown"

/-- Python `classify_email`. -/
def classify_email (loc domain : String) : String :=
  let d := pyLower domain
  if FREE_PROVIDERS.contains d then "free"
  else if DISPOSABLE_PROVIDERS.any (fun dp => pyEndsWith d dp) then "disposable"
  else if pyEndsWith d ".gov" || pyEndsWith d ".gov.pk" then "government"
  else if ROLE_PREFIXES.any (fun p => pyStartsWith (pyLower loc) p) then "role"
  else "business"

/-! ## SMTP multi-probe (`smtp_multi_probe`) -/

/-- Record produced by one recipient check of the probe loop. -/
def rcptRecord (tr : Transport) (i : ℕ) (addr : String) : ProbeRecord :=
  let o := tr.rcpt i addr
  ⟨addr, o.code, o.msg, some o.latency⟩

/-- Python `smtp_multi_probe(mx, target_email)` with the transport and the
two random decoy local-parts made explicit.  A failure at the
connect/helo/mail stage yields the single synthetic record; a failure at
`s.quit()` is caught by the same `except` block, which appends the
synthetic record after the three recipient records. -/
def smtp_multi_probe (tr : Transport) (d1 d2 target : String) : List ProbeRecord :=
  let domain := afterFirstAt target
  match tr.connect with
  | .error e => [⟨"__connect__", none, "connect_error:" ++ e, none⟩]
  | .ok _ =>
    let recs := [rcptRecord tr 0 (d1 ++ "@" ++ domain),
                 rcptRecord tr 1 target,
                 rcptRecord tr 2 (d2 ++ "@" ++ domain)]
    match tr.quit with
    | .ok _ => recs
    | .error e => recs ++ [⟨"__connect__", none, "connect_error:" ++ e, none⟩]

/-- Network events of the same session, for the no-network-calls claims. -/
def probeEvents (tr : Transport) (d1 d2 target : String) : List NetEvent :=
  let domain := afterFirstAt target
  match tr.connect with
  | .error _ => [.smtpConnect]
  | .ok _ => [.smtpConnect, .rcptCall (d1 ++ "@" ++ domain), .rcptCall target,
              .rcptCall (d2 ++ "@" ++ domain)]

/-! ## Catch-all analysis (`analyze_entropy_and_catchall`) -/

/-- Distinct-message count as the analyzer computes it:
`len(set(m[-80:] for ... m ...))` over all records (every recorded
message is a string, so the `isinstance(m, str)` filter keeps all of
them). -/
def entropyOf (seq : List ProbeRecord) : ℕ :=
  ((seq.map fun r => last80 r.msg).dedup).length

/-- Body of the analyzer once the three local lists have been extracted.
Mirrors the Python locals:
`entropy = len(set(msgs))`, `delta = int(max - min) if latencies else 0`,
then `fake1, real, fake2 = codes[0], codes[1], codes[2]` — which raises
`IndexError` (modelled as `none`) when fewer than 3 non-null codes
exist. -/
def analyzeFrom (codes : List ℕ) (msgs : List String) (latencies : List ℚ) :
    Option Analysis :=
  let entropy := msgs.dedup.length
  let delta : ℤ := if latencies.isEmpty then 0 else pyInt (listMax latencies - listMin latencies)
  match codes with
  | fake1 :: real :: fake2 :: _ =>
    some ⟨entropy, delta,
      (fake1 == 250 && fake2 == 250) || (entropy == 1 && real == 250),
      some real,
      if latencies.isEmpty then none else some (pyInt (listMean latencies))⟩
  | _ => none

/-- Python `analyze_entropy_and_catchall` as written in `src/main.py`,
where no `try/except` surrounds the body: `none` models the uncaught
`IndexError` raised when fewer than 3 non-null codes exist. -/
def analyze_entropy_and_catchall_main (seq : List ProbeRecord) : Option Analysis :=
  analyzeFrom (seq.filterMap (fun r => r.code))
    (seq.map fun r => last80 r.msg)
    (seq.filterMap (fun r => r.latency))

/-- Fallback dictionary returned by the `except` branch in
`src/verifier.py`. -/
def analysisFallback : Analysis := ⟨0, 0, false, none, none⟩

/-- Python `analyze_entropy_and_catchall` as written in `src/verifier.py`,
whose `try/except` converts the `IndexError` into the fallback
dictionary. -/
def analyze_entropy_and_catchall (seq : List ProbeRecord) : Analysis :=
  (analyze_entropy_and_catchall_main seq).getD analysisFallback

/-! ## Verifier (`verify_email`) -/

/-- Initial result dictionary of `verify_email` (the `src/verifier.py`
variant, whose `details` starts with all classification fields present
and `None`; in `src/main.py` the same fields are simply absent — both are
`none` here). -/
def initResult (email : String) : VerificationResult :=
  ⟨email, "undeliverable", false, 0, "unknown", [],
   ⟨none, none, none⟩, ⟨none, none, none, none, none, none, none⟩⟩

/-- Decision step of `src/verifier.py`'s `verify_email` after the
analysis: fills `smtp`, `details.is_catch_all` and the decision table
fields. -/
def finishVerify (base : VerificationResult) (seq : List ProbeRecord) :
    VerificationResult :=
  let a := analyze_entropy_and_catchall seq
  let filled := { base with
    smtp := ⟨a.real_code, (seq.get? 1).map (fun r : ProbeRecord => r.msg), some a.delta⟩
    details := { base.details with is_catch_all := some a.is_catch_all } }
  if a.real_code = some 250 then
    { filled with
      status := "deliverable"
      deliverable := true
      verification_score := if a.is_catch_all then 85/100 else 98/100
      details := { filled.details with reasoning := some "250_ok" } }
  else if a.real_code = some 550 then
    { filled with
      status := "undeliverable"
      deliverable := false
      verification_score := 0
      details := { filled.details with reasoning := some "550_hard_fail" } }
  else
    { filled with
      status := "undeliverable"
      verification_score := 0
      details := { filled.details with reasoning := some "smtp_error" } }

/-- Decision step of `src/main.py`'s `verify_email`: the 550 and
other/null branches only assign `reasoning`, leaving the initial
`status`/`deliverable`/`verification_score` in place. -/
def finishVerifyMain (base : VerificationResult) (seq : List ProbeRecord)
    (a : Analysis) : VerificationResult :=
  let filled := { base with
    smtp := ⟨a.real_code, (seq.get? 1).map (fun r : ProbeRecord => r.msg), some a.delta⟩
    details := { base.details with is_catch_all := some a.is_catch_all } }
  if a.real_code = some 250 then
    { filled with
      status := "deliverable"
      deliverable := true
      verification_score := if a.is_catch_all then 85/100 else 98/100
      details := { filled.details with reasoning := some "250_ok" } }
  else if a.real_code = some 550 then
    { filled with details := { filled.details with reasoning := some "550_hard_fail" } }
  else
    { filled with details := { filled.details with reasoning := some "smtp_error" } }

/-- Classification fields filled in by `src/verifier.py`'s `verify_email`
after the syntax check. -/
def classifiedDetails (etype : String) : Details :=
  ⟨some etype, some (etype == "free"), some (etype == "disposable"),
   some (etype == "role"), some (etype == "government"), none, none⟩

/-- Python `verify_email` from `src/verifier.py`, returning the result
together with the trace of network events it issued.  The MX stage
mirrors the Python `try` block: `result["mx_records"]["mx"]` is assigned
before `mx_records[0]` is read, so a resolver that returns an empty list
leaves the assigned `[]` in place and the `IndexError` from `mx_records[0]`
is caught by the same `except`, whose exception text is
`"list index out of range"`. -/
def verify_emailT (env : Env) (email : String) :
    VerificationResult × List NetEvent :=
  let base := initResult email
  if ¬ emailRegexMatch email then
    ({ base with details := { base.details with reasoning := some "bad_syntax" } }, [])
  else
    let loc := beforeFirstAt email
    let domain := afterFirstAt email
    let base := { base with details := classifiedDetails (classify_email loc domain) }
    match env.dns domain with
    | .error e =>
      ({ base with details := { base.details with reasoning := some ("no_mx | " ++ e) } },
       [.dnsLookup domain])
    | .ok mxs =>
      let base := { base with mx_records := mxs }
      match mxs with
      | [] =>
        ({ base with details :=
            { base.details with reasoning := some "no_mx | list index out of range" } },
         [.dnsLookup domain])
      | mx0 :: _ =>
        let base := { base with mx_provider := detect_mx_provider mx0 }
        let seq := smtp_multi_probe env.tr env.d1 env.d2 email
        (finishVerify base seq,
         .dnsLookup domain :: probeEvents env.tr env.d1 env.d2 email)

/-- Result component of `verify_emailT`. -/
def verify_email (env : Env) (email : String) : VerificationResult :=
  (verify_emailT env email).1

/-- Python `verify_email` from `src/main.py`.  It differs from the
`src/verifier.py` variant in two ways visible to this development: the
analysis call is unguarded, so the `IndexError` raised on a sequence with
fewer than 3 non-null codes propagates out of `verify_email` (modelled as
`none`); and the 550/other branches only assign `reasoning`. -/
def verify_email_main (env : Env) (email : String) : Option VerificationResult :=
  let base := initResult email
  if ¬ emailRegexMatch email then
    some { base with details := { base.details with reasoning := some "bad_syntax" } }
  else
    let loc := beforeFirstAt email
    let domain := afterFirstAt email
    let base := { base with details :=
      { base.details with email_type := some (classify_email loc domain) } }
    match env.dns domain with
    | .error e =>
      some { base with details := { base.details with reasoning := some ("no_mx | " ++ e) } }
    | .ok mxs =>
      let base := { base with mx_records := mxs }
      match mxs with
      | [] =>
        some { base with details :=
          { base.details with reasoning := some "no_mx | list index out of range" } }
      | mx0 :: _ =>
        let base := { base with mx_provider := detect_mx_provider mx0 }
        let seq := smtp_multi_probe env.tr env.d1 env.d2 email
        match analyze_entropy_and_catchall_main seq with
        | none => none
        | some a => some (finishVerifyMain base seq a)

/-! ## Bulk verification and the finder (`src/main.py`) -/

/-- Python `verify_bulk_emails`, abstracted over the per-candidate
verifier `V` (in the source, `verify_email` with its ambient network
state).  The thread pool yields results in nondeterministic completion
order; the embedding models completion order as submission order. -/
def verify_bulk_emails (V : String → VerificationResult) (emails : List String) :
    List VerificationResult :=
  emails.map V

/-- Take the first `n` characters (Python `s[:n]`). -/
def strTake (n : ℕ) (s : String) : String := (s.toList.take n).asString

/-- Python `clean_name`: whitespace-split, keep only ASCII letters in
each piece, lowercase. -/
def clean_name (full_name : String) : List String :=
  (pyWords full_name).map fun p => (lowerL (p.toList.filter Char.isAlpha)).asString

/-- Python `generate_patterns`.  When some cleaned piece is the empty
string, the `p[0]` / `first[0]` / `last[0]` indexing raises `IndexError`
(modelled as `none`). -/
def generate_patterns (full_name domain : String) : Option (List String) :=
  match h : clean_name full_name with
  | [] => some []
  | p :: rest =>
    let parts := p :: rest
    if parts.any (fun q => q = "") then none
    else
      let first := p
      let last := parts.getLast (by simp)
      let initials := String.join (parts.map (strTake 1))
      some (pyDedup
        [first ++ "@" ++ domain,
         last ++ "@" ++ domain,
         first ++ "." ++ last ++ "@" ++ domain,
         first ++ last ++ "@" ++ domain,
         strTake 1 first ++ last ++ "@" ++ domain,
         first ++ "." ++ strTake 1 last ++ "@" ++ domain,
         strTake 1 first ++ "." ++ last ++ "@" ++ domain,
         initials ++ "@" ++ domain,
         strTake 3 first ++ last ++ "@" ++ domain,
         first ++ strTake 2 last ++ "@" ++ domain])

def GENERAL_ADDRESSES : List String :=
  ["support", "help", "team", "info", "contact", "hello", "sales", "admin"]

/-- Finder outcome dictionary of `find_email_for_person` (`type` and
`record` keys are absent in the `not_found` case, modelled as `none`). -/
structure FindOutcome where
  status : String
  email : Option String
  kind : Option String
  record : Option VerificationResult
  tried : List String
deriving DecidableEq

/-- One chunked scanning pass of `find_email_for_person`: extend `tried`
with each chunk, verify it, and return on the first result whose
`deliverable` field is truthy.  Also returns the final `tried` list. -/
def findInChunks (V : String → VerificationResult) :
    List (List String) → List String → Option VerificationResult × List String
  | [], tried => (none, tried)
  | b :: rest, tried =>
    let tried2 := tried ++ b
    match (verify_bulk_emails V b).find? (fun r => r.deliverable) with
    | some r => (some r, tried2)
    | none => findInChunks V rest tried2

/-- Python `find_email_for_person` from `src/main.py`, abstracted over
the per-candidate verifier `V`.  The selection test of both phases is
`r.get("deliverable")` alone.  `none` models the `IndexError` that
`generate_patterns` raises on names whose pieces contain no letters. -/
def find_email_for_person (V : String → VerificationResult)
    (full_name domain0 : String) (batch_size : ℕ) : Option FindOutcome :=
  let domain := stripWWW (pyLower domain0)
  match generate_patterns full_name domain with
  | none => none
  | some candidates =>
    match findInChunks V (chunkList batch_size candidates) [] with
    | (some r, tried) => some ⟨"found", some r.email, some "personal", some r, tried⟩
    | (none, tried) =>
      let general := GENERAL_ADDRESSES.map (fun g => g ++ "@" ++ domain)
      let tried2 := tried ++ general
      match (findInChunks V (chunkList batch_size general) []).1 with
      | some r => some ⟨"found_company", some r.email, some "company", some r, tried2⟩
      | none => some ⟨"not_found", none, none, none, tried2⟩

/-! ## Batch mode with scoring (`verify_batch`)

`src/finder.py` imports `verify_batch` from the verifier module, but no
file under `src/` defines it — only this caller exists.  It is therefore
modelled from the specification (§4.5, "exhaustive-then-score"). -/

/-- Result entry of the batch verifier as `src/finder.py` reads it:
`email`, `deliverable`, and a probe latency. -/
structure BatchRes where
  email : String
  deliverable : Bool
  latency : ℚ
deriving DecidableEq

/-- Mean probe latency across a batch. -/
def batchMean (rs : List BatchRes) : ℚ := listMean (rs.map (fun r => r.latency))

/-- Population variance of the probe latencies across a batch (the
specification fixes only "standard deviation", not the sample/population
choice). -/
def batchVar (rs : List BatchRes) : ℚ :=
  listMean ((rs.map (fun r => r.latency)).map fun x => (x - batchMean rs) ^ 2)

/-- Modelled from the spec: the timing-outlier test of §4.5 — "pick the
first candidate whose latency exceeds mean + 2·stddev".  Stated
square-root-free over ℚ: for `x > μ`, `x − μ > 2·σ ↔ (x − μ)² > 4·σ²`. -/
def isTimingOutlier (rs : List BatchRes) (r : BatchRes) : Bool :=
  batchMean rs < r.latency && 4 * batchVar rs < (r.latency - batchMean rs) ^ 2

/-- Modelled from the spec: the "chosen" component of `verify_batch`
(absent from `src/`), per §4.5 exhaustive-then-score — first timing
outlier, else first deliverable result, else none. -/
def chooseBatchResult (rs : List BatchRes) : Option BatchRes :=
  match rs.find? (isTimingOutlier rs) with
  | some r => some r
  | none => rs.find? (fun r => r.deliverable)

/-- Modelled from the spec: `verify_batch` collects all results and picks
a chosen one (§4.5); `src/finder.py` reads `batch["results"]` and
`batch["chosen"]`. -/
def verify_batch (V : String → BatchRes) (emails : List String) :
    List BatchRes × Option BatchRes :=
  let results := emails.map V
  (results, chooseBatchResult results)

/-! ## Helper lemmas -/

lemma chunkListAux_flatten {α : Type} (n : ℕ) (hn : n ≠ 0) :
    ∀ (fuel : ℕ) (l : List α), l.length ≤ fuel → (chunkListAux n fuel l).flatten = l := by
  intro fuel
  induction fuel with
  | zero =>
    intro l hl
    cases l with
    | nil => simp [chunkListAux]
    | cons x rest => simp at hl
  | succ f ih =>
    intro l hl
    cases l with
    | nil => simp [chunkListAux]
    | cons x rest =>
      simp only [chunkListAux, hn, if_false, List.flatten_cons]
      rw [ih ((x :: rest).drop n)
        (by simp only [List.length_drop, List.length_cons]
            simp only [List.length_cons] at hl
            omega)]
      exact List.take_append_drop n (x :: rest)

lemma chunkList_flatten {α : Type} (n : ℕ) (hn : n ≠ 0) (l : List α) :
    (chunkList n l).flatten = l :=
  chunkListAux_flatten n hn l.length l le_rfl

lemma findInChunks_fst (V : String → VerificationResult) (chunks : List (List String))
    (t : List String) :
    (findInChunks V chunks t).1 = (chunks.flatten.map V).find? (fun r => r.deliverable) := by
  induction chunks generalizing t with
  | nil => simp [findInChunks]
  | cons b rest ih =>
    simp only [findInChunks, verify_bulk_emails, List.flatten_cons, List.map_append,
      List.find?_append]
    cases h : (b.map V).find? (fun r => r.deliverable) with
    | none => simp [h, ih]
    | some r => simp [h]

/-- The analyzer reads only the `code`, `msg` and `latency` components of
a sequence, never the addresses. -/
lemma analyze_main_ext (s s' : List ProbeRecord)
    (h : s.map (fun r => (r.code, r.msg, r.latency)) =
         s'.map (fun r => (r.code, r.msg, r.latency))) :
    analyze_entropy_and_catchall_main s = analyze_entropy_and_catchall_main s' := by
  have hc : s.filterMap (fun r => r.code) = s'.filterMap (fun r => r.code) := by
    have h2 := congrArg (List.filterMap (fun v : Option ℕ × String × Option ℚ => v.1)) h
    simpa [List.filterMap_map, Function.comp_def] using h2
  have hm : (s.map fun r => last80 r.msg) = (s'.map fun r => last80 r.msg) := by
    have h2 := congrArg (List.map (fun v : Option ℕ × String × Option ℚ => last80 v.2.1)) h
    simpa [List.map_map, Function.comp_def] using h2
  have hl : s.filterMap (fun r => r.latency) = s'.filterMap (fun r => r.latency) := by
    have h2 := congrArg (List.filterMap (fun v : Option ℕ × String × Option ℚ => v.2.2)) h
    simpa [List.filterMap_map, Function.comp_def] using h2
  unfold analyze_entropy_and_catchall_main
  rw [hc, hm, hl]

lemma analyze_ext (s s' : List ProbeRecord)
    (h : s.map (fun r => (r.code, r.msg, r.latency)) =
         s'.map (fun r => (r.code, r.msg, r.latency))) :
    analyze_entropy_and_catchall s = analyze_entropy_and_catchall s' := by
  unfold analyze_entropy_and_catchall
  rw [analyze_main_ext s s' h]

/-- With an address-blind transport, the non-address components of the
probe sequence do not depend on the decoy local-parts. -/
lemma smtp_multi_probe_ext (tr : Transport) (d1 d2 d1' d2' target : String)
    (h : ∀ i a b, tr.rcpt i a = tr.rcpt i b) :
    (smtp_multi_probe tr d1 d2 target).map (fun r => (r.code, r.msg, r.latency)) =
    (smtp_multi_probe tr d1' d2' target).map (fun r => (r.code, r.msg, r.latency)) := by
  unfold smtp_multi_probe rcptRecord
  cases tr.connect with
  | error e => rfl
  | ok u =>
    cases tr.quit with
    | ok v =>
      simp only [List.map_cons, List.map_nil]
      rw [h 0 (d1 ++ "@" ++ afterFirstAt target) (d1' ++ "@" ++ afterFirstAt target),
          h 2 (d2 ++ "@" ++ afterFirstAt target) (d2' ++ "@" ++ afterFirstAt target)]
    | error e =>
      simp only [List.map_append, List.map_cons, List.map_nil]
      rw [h 0 (d1 ++ "@" ++ afterFirstAt target) (d1' ++ "@" ++ afterFirstAt target),
          h 2 (d2 ++ "@" ++ afterFirstAt target) (d2' ++ "@" ++ afterFirstAt target)]

/-- The decision fields produced by `finishVerify` depend on the sequence
only through the analysis. -/
lemma finishVerify_decision (base : VerificationResult) (s s' : List ProbeRecord)
    (ha : analyze_entropy_and_catchall s = analyze_entropy_and_catchall s') :
    (finishVerify base s).status = (finishVerify base s').status ∧
    (finishVerify base s).deliverable = (finishVerify base s').deliverable ∧
    (finishVerify base s).verification_score = (finishVerify base s').verification_score ∧
    (finishVerify base s).details.reasoning = (finishVerify base s').details.reasoning := by
  unfold finishVerify
  rw [ha]
  dsimp only
  split_ifs <;> simp

/-! ## Concrete fixtures used by counterexamples and witnesses -/

/-- Resolver oracle that returns a single exchanger for every domain. -/
def dns0 : String → Except String (List String) := fun _ => .ok ["mx.example.com"]

/-- Transport whose recipient checks all return code 250 with the same
message. -/
def tr250 : Transport := ⟨.ok (), fun _ _ => ⟨some 250, "ok", 5⟩, .ok ()⟩

def env250 : Env := ⟨dns0, tr250, "aaaaaaaa", "bbbbbbbb"⟩

/-- Transport that fails at the connect stage. -/
def trConn : Transport := ⟨.error "timed out", fun _ _ => ⟨none, "", 0⟩, .ok ()⟩

def envConn : Env := ⟨dns0, trConn, "aaaaaaaa", "bbbbbbbb"⟩

/-- The single synthetic record produced when the connect stage fails. -/
def connectFailSeq : List ProbeRecord :=
  [⟨"__connect__", none, "connect_error:timed out", none⟩]

/-- Probe sequence with a missing first decoy code, flat messages and a
250 real code. -/
def seqC3 : List ProbeRecord :=
  [⟨"d1@x.com", none, "m", some 1⟩, ⟨"r@x.com", some 250, "m", some 2⟩,
   ⟨"d2@x.com", some 250, "m", some 3⟩]

/-- Probe sequence where both decoys return 250 and the real recipient
check failed (null code). -/
def seqC4 : List ProbeRecord :=
  [⟨"d1@x.com", some 250, "a", some 1⟩, ⟨"r@x.com", none, "b", some 2⟩,
   ⟨"d2@x.com", some 250, "c", some 3⟩]

/-- Transport where the first recipient check fails (null code) and the
latencies spread from 1ms to 9ms. -/
def trC10 : Transport :=
  ⟨.ok (),
   fun i _ => if i = 0 then ⟨none, "refused", 1⟩
              else if i = 1 then ⟨some 250, "m", 5⟩ else ⟨some 250, "m2", 9⟩,
   .ok ()⟩

def envC10 : Env := ⟨dns0, trC10, "aaaaaaaa", "bbbbbbbb"⟩

/-- A deliverable, catch-all verification result for candidate `e`. -/
def deliverableCatchAllRes (e : String) : VerificationResult :=
  { initResult e with
    status := "deliverable"
    deliverable := true
    details := { (initResult e).details with
      is_catch_all := some true
      reasoning := some "250_ok" } }

/-- Per-candidate verifier where exactly `ann@x.com` is deliverable, and
deliverable as a catch-all. -/
def V0 : String → VerificationResult :=
  fun e => if e = "ann@x.com" then deliverableCatchAllRes e else initResult e

/-! ## Claims -/

/-- C1: for a probe sequence with fewer than 3 usable codes (here the
single synthetic connect-failure record), the claim says the analyzer
resolves `is_catch_all`/`real_code` to undetermined without raising and
`verify_email` returns a result for every input.  The `src/verifier.py`
analyzer indeed degrades to the fallback and its `verify_email` reports
`smtp_error`; but the `src/main.py` copy of the analyzer has no
`try/except`, so the `IndexError` from `codes[0]` propagates out of
`src/main.py`'s `verify_email` (modelled as `none`). -/
theorem C1_short_sequence_analyzer :
    smtp_multi_probe trConn "aaaaaaaa" "bbbbbbbb" "a@b.co" = connectFailSeq ∧
    analyze_entropy_and_catchall_main connectFailSeq = none ∧
    verify_email_main envConn "a@b.co" = none ∧
    analyze_entropy_and_catchall connectFailSeq = analysisFallback ∧
    (verify_email envConn "a@b.co").details.reasoning = some "smtp_error" := by
  refine ⟨by decide, by decide, by decide, by decide, by decide⟩

/-- C3 counterexample: a sequence with entropy 1 and real (position 1)
code 250 but a missing decoy code.  The claim says `is_catch_all` is true
even then; the `src/verifier.py` analyzer returns the fallback
(`is_catch_all = false`) because the filtered code list has only two
entries, and the `src/main.py` analyzer raises. -/
theorem C3_counterexample :
    entropyOf seqC3 = 1 ∧
    (seqC3.get? 1).map (fun r : ProbeRecord => r.code) = some (some 250) ∧
    (seqC3.get? 0).map (fun r : ProbeRecord => r.code) = some none ∧
    (analyze_entropy_and_catchall seqC3).is_catch_all = false ∧
    analyze_entropy_and_catchall_main seqC3 = none := by
  refine ⟨by decide, by decide, by decide, by decide, by decide⟩

/-- C3 amended: for every 3-record ProbeSequence whose codes are all
non-null, if the entropy is 1 and the real (position 1) code is 250 then
the analyzer sets `is_catch_all` to true. -/
theorem C3_flat_entropy_catch_all (r0 r1 r2 : ProbeRecord) (c0 c2 : ℕ)
    (h0 : r0.code = some c0) (h1 : r1.code = some 250) (h2 : r2.code = some c2)
    (he : entropyOf [r0, r1, r2] = 1) :
    (analyze_entropy_and_catchall [r0, r1, r2]).is_catch_all = true := by
  have he2 : ([last80 r0.msg, last80 r1.msg, last80 r2.msg]).dedup.length = 1 := by
    simpa [entropyOf] using he
  unfold analyze_entropy_and_catchall analyze_entropy_and_catchall_main analyzeFrom
  simp [List.filterMap_cons, h0, h1, h2, he2]

theorem C3_flat_entropy_catch_all_witness :
    (analyze_entropy_and_catchall
      [⟨"d1@x.com", some 250, "m", some 1⟩, ⟨"r@x.com", some 250, "m", some 2⟩,
       ⟨"d2@x.com", some 999, "m", some 3⟩]).is_catch_all = true :=
  C3_flat_entropy_catch_all _ _ _ 250 999 rfl rfl rfl (by decide)

/-- C4 counterexample: both decoy positions carry code 250 but the real
(position 1) code is null.  The claim says `is_catch_all` is true even
then; the `src/verifier.py` analyzer returns the fallback
(`is_catch_all = false`) because only two non-null codes remain, and the
`src/main.py` analyzer raises. -/
theorem C4_counterexample :
    (seqC4.get? 0).map (fun r : ProbeRecord => r.code) = some (some 250) ∧
    (seqC4.get? 2).map (fun r : ProbeRecord => r.code) = some (some 250) ∧
    (seqC4.get? 1).map (fun r : ProbeRecord => r.code) = some none ∧
    (analyze_entropy_and_catchall seqC4).is_catch_all = false ∧
    analyze_entropy_and_catchall_main seqC4 = none := by
  refine ⟨by decide, by decide, by decide, by decide, by decide⟩

/-- C4 amended: for every 3-record ProbeSequence whose codes are all
non-null, if both decoy (positions 0 and 2) codes are 250 then the
analyzer sets `is_catch_all` to true, whatever the real code is. -/
theorem C4_decoy_250_catch_all (r0 r1 r2 : ProbeRecord) (c : ℕ)
    (h0 : r0.code = some 250) (h1 : r1.code = some c) (h2 : r2.code = some 250) :
    (analyze_entropy_and_catchall [r0, r1, r2]).is_catch_all = true := by
  unfold analyze_entropy_and_catchall analyze_entropy_and_catchall_main analyzeFrom
  simp [List.filterMap_cons, h0, h1, h2]

theorem C4_decoy_250_catch_all_witness :
    (analyze_entropy_and_catchall
      [⟨"d1@x.com", some 250, "a", some 1⟩, ⟨"r@x.com", some 550, "b", some 2⟩,
       ⟨"d2@x.com", some 250, "c", some 3⟩]).is_catch_all = true :=
  C4_decoy_250_catch_all _ _ _ 550 rfl rfl rfl

/-- C7: every candidate that fails the syntactic address pattern yields
`status = undeliverable`, `deliverable = false`,
`reasoning = bad_syntax`, and no network event (no DNS lookup, no SMTP
connection, no recipient check) is issued. -/
theorem C7_bad_syntax_no_network (env : Env) (email : String)
    (h : emailRegexMatch email = false) :
    (verify_email env email).status = "undeliverable" ∧
    (verify_email env email).deliverable = false ∧
    (verify_email env email).details.reasoning = some "bad_syntax" ∧
    (verify_emailT env email).2 = [] := by
  unfold verify_email verify_emailT
  simp [h, initResult]

theorem C7_bad_syntax_no_network_witness :
    (verify_email env250 "not-an-email").status = "undeliverable" ∧
    (verify_email env250 "not-an-email").deliverable = false ∧
    (verify_email env250 "not-an-email").details.reasoning = some "bad_syntax" ∧
    (verify_emailT env250 "not-an-email").2 = [] :=
  C7_bad_syntax_no_network env250 "not-an-email" (by decide)

/-- C9: on every input and in every environment, the result status is
either `deliverable` or `undeliverable` — never `unknown` or `error` —
and `deliverable = true` holds exactly when the status is
`deliverable`. -/
theorem C9_status_dichotomy (env : Env) (email : String) :
    (((verify_email env email).status = "deliverable" ∨
        (verify_email env email).status = "undeliverable") ∧
      ((verify_email env email).deliverable = true ↔
        (verify_email env email).status = "deliverable")) ∧
    (∀ r : VerificationResult, verify_email_main env email = some r →
      (r.status = "deliverable" ∨ r.status = "undeliverable") ∧
      (r.deliverable = true ↔ r.status = "deliverable")) := by
  constructor
  · unfold verify_email verify_emailT
    by_cases hre : emailRegexMatch email
    · simp only [hre, not_true_eq_false, if_false]
      cases hdns : env.dns (afterFirstAt email) with
      | error e => simp [initResult]
      | ok mxs =>
        cases mxs with
        | nil => simp [initResult]
        | cons mx0 tl =>
          unfold finishVerify
          dsimp only
          split_ifs <;> simp [initResult]
    · simp [hre, initResult]
  · intro r hr
    unfold verify_email_main at hr
    by_cases hre : emailRegexMatch email
    · simp only [hre, not_true_eq_false, if_false] at hr
      try dsimp only at hr
      cases hdns : env.dns (afterFirstAt email) with
      | error e =>
        rw [hdns] at hr
        try dsimp only at hr
        obtain rfl := Option.some.inj hr
        simp [initResult]
      | ok mxs =>
        rw [hdns] at hr
        cases mxs with
        | nil =>
          try dsimp only at hr
          obtain rfl := Option.some.inj hr
          simp [initResult]
        | cons mx0 tl =>
          try dsimp only at hr
          cases ha : analyze_entropy_and_catchall_main
              (smtp_multi_probe env.tr env.d1 env.d2 email) with
          | none => rw [ha] at hr; simp at hr
          | some a =>
            rw [ha] at hr
            try dsimp only at hr
            obtain rfl := Option.some.inj hr
            unfold finishVerifyMain
            dsimp only
            split_ifs <;> simp [initResult]
    · simp only [hre, not_false_eq_true, if_true] at hr
      obtain rfl := Option.some.inj hr
      simp [initResult]

theorem C9_status_dichotomy_witness :
    (((verify_email env250 "a@b.co").status = "deliverable" ∨
        (verify_email env250 "a@b.co").status = "undeliverable") ∧
      ((verify_email env250 "a@b.co").deliverable = true ↔
        (verify_email env250 "a@b.co").status = "deliverable")) ∧
    ((((verify_email_main env250 "a@b.co").get (by decide)).status = "deliverable" ∨
        ((verify_email_main env250 "a@b.co").get (by decide)).status = "undeliverable") ∧
      (((verify_email_main env250 "a@b.co").get (by decide)).deliverable = true ↔
        ((verify_email_main env250 "a@b.co").get (by decide)).status = "deliverable")) :=
  ⟨(C9_status_dichotomy env250 "a@b.co").1,
   (C9_status_dichotomy env250 "a@b.co").2 _ (Option.some_get (by decide)).symm⟩

/-- C6: once probing is reached, the decision is a function of
`real_code` and `is_catch_all` alone, per the decision table:
250 → deliverable, score 0.98 (0.85 when catch-all), `250_ok`;
550 → undeliverable, score 0, `550_hard_fail`;
anything else (including null) → undeliverable, score 0, `smtp_error`;
catch-all status never overrides deliverability. -/
theorem C6_decision_table (env : Env) (email mx0 : String) (tl : List String)
    (hs : emailRegexMatch email = true)
    (hd : env.dns (afterFirstAt email) = .ok (mx0 :: tl)) :
    ((analyze_entropy_and_catchall
        (smtp_multi_probe env.tr env.d1 env.d2 email)).real_code = some 250 →
      (verify_email env email).status = "deliverable" ∧
      (verify_email env email).deliverable = true ∧
      (verify_email env email).verification_score =
        (if (analyze_entropy_and_catchall
              (smtp_multi_probe env.tr env.d1 env.d2 email)).is_catch_all
         then 85/100 else 98/100) ∧
      (verify_email env email).details.reasoning = some "250_ok") ∧
    ((analyze_entropy_and_catchall
        (smtp_multi_probe env.tr env.d1 env.d2 email)).real_code = some 550 →
      (verify_email env email).status = "undeliverable" ∧
      (verify_email env email).deliverable = false ∧
      (verify_email env email).verification_score = 0 ∧
      (verify_email env email).details.reasoning = some "550_hard_fail") ∧
    ((analyze_entropy_and_catchall
        (smtp_multi_probe env.tr env.d1 env.d2 email)).real_code ≠ some 250 →
      (analyze_entropy_and_catchall
        (smtp_multi_probe env.tr env.d1 env.d2 email)).real_code ≠ some 550 →
      (verify_email env email).status = "undeliverable" ∧
      (verify_email env email).deliverable = false ∧
      (verify_email env email).verification_score = 0 ∧
      (verify_email env email).details.reasoning = some "smtp_error") := by
  unfold verify_email verify_emailT
  simp only [hs, not_true_eq_false, if_false, hd]
  unfold finishVerify
  dsimp only
  refine ⟨fun h250 => ?_, fun h550 => ?_, fun hn1 hn2 => ?_⟩
  · simp [h250, initResult]
  · simp [h550, initResult]
  · simp [hn1, hn2, initResult]

theorem C6_decision_table_witness :
    (verify_email env250 "a@b.co").status = "deliverable" ∧
    (verify_email env250 "a@b.co").deliverable = true ∧
    (verify_email env250 "a@b.co").verification_score = 85/100 ∧
    (verify_email env250 "a@b.co").details.reasoning = some "250_ok" := by
  have h := (C6_decision_table env250 "a@b.co" "mx.example.com" [] (by decide) rfl).1
    (by decide)
  have hca : (analyze_entropy_and_catchall
      (smtp_multi_probe env250.tr env250.d1 env250.d2 "a@b.co")).is_catch_all = true := by
    decide
  obtain ⟨h1, h2, h3, h4⟩ := h
  refine ⟨h1, h2, ?_, h4⟩
  rw [h3, hca]
  simp

/-- C8: with a fixed transport whose recipient-check responses do not
depend on the queried address (a mock returning identical codes,
messages and latencies per call position), the decision fields —
status, score, reasoning — do not depend on the random decoy
local-parts.  Two runs with the same transport and different decoys
therefore decide identically. -/
theorem C8_decision_ignores_decoys (dns : String → Except String (List String))
    (tr : Transport) (d1 d2 d1' d2' email : String)
    (h : ∀ i a b, tr.rcpt i a = tr.rcpt i b) :
    (verify_email ⟨dns, tr, d1, d2⟩ email).status =
      (verify_email ⟨dns, tr, d1', d2'⟩ email).status ∧
    (verify_email ⟨dns, tr, d1, d2⟩ email).verification_score =
      (verify_email ⟨dns, tr, d1', d2'⟩ email).verification_score ∧
    (verify_email ⟨dns, tr, d1, d2⟩ email).details.reasoning =
      (verify_email ⟨dns, tr, d1', d2'⟩ email).details.reasoning := by
  have ha : analyze_entropy_and_catchall (smtp_multi_probe tr d1 d2 email) =
      analyze_entropy_and_catchall (smtp_multi_probe tr d1' d2' email) :=
    analyze_ext _ _ (smtp_multi_probe_ext tr d1 d2 d1' d2' email h)
  unfold verify_email verify_emailT
  by_cases hre : emailRegexMatch email
  · simp only [hre, not_true_eq_false, if_false]
    cases hdns : dns (afterFirstAt email) with
    | error e => simp
    | ok mxs =>
      cases mxs with
      | nil => simp
      | cons mx0 tl =>
        dsimp only
        have hfin := finishVerify_decision
          { initResult email with
            details := classifiedDetails
              (classify_email (beforeFirstAt email) (afterFirstAt email))
            mx_records := mx0 :: tl
            mx_provider := detect_mx_provider mx0 }
          (smtp_multi_probe tr d1 d2 email) (smtp_multi_probe tr d1' d2' email) ha
        exact ⟨hfin.1, hfin.2.2.1, hfin.2.2.2⟩
  · simp [hre]

theorem C8_decision_ignores_decoys_witness :
    (verify_email ⟨dns0, tr250, "aaaaaaaa", "bbbbbbbb"⟩ "a@b.co").status =
      (verify_email ⟨dns0, tr250, "cccccccc", "dddddddd"⟩ "a@b.co").status ∧
    (verify_email ⟨dns0, tr250, "aaaaaaaa", "bbbbbbbb"⟩ "a@b.co").verification_score =
      (verify_email ⟨dns0, tr250, "cccccccc", "dddddddd"⟩ "a@b.co").verification_score ∧
    (verify_email ⟨dns0, tr250, "aaaaaaaa", "bbbbbbbb"⟩ "a@b.co").details.reasoning =
      (verify_email ⟨dns0, tr250, "cccccccc", "dddddddd"⟩ "a@b.co").details.reasoning :=
  C8_decision_ignores_decoys dns0 tr250 "aaaaaaaa" "bbbbbbbb" "cccccccc" "dddddddd"
    "a@b.co" (fun _ _ _ => rfl)

/-- Latency spread of a probe sequence as claim C10 words it: maximum
minus minimum latency across the records with a recorded latency,
truncated to an integer.  This follows the claim text, to be compared
with the `delta` the analyzer actually stores. -/
def latencySpread (seq : List ProbeRecord) : ℤ :=
  pyInt (listMax (seq.filterMap (fun r => r.latency)) -
         listMin (seq.filterMap (fun r => r.latency)))

/-- The probe sequence produced by `trC10`. -/
def seqC10 : List ProbeRecord :=
  [⟨"aaaaaaaa@b.co", none, "refused", some 1⟩, ⟨"a@b.co", some 250, "m", some 5⟩,
   ⟨"bbbbbbbb@b.co", some 250, "m2", some 9⟩]

/-- C10 counterexample: when a recipient check fails (null code), the
analyzer falls back to `delta = 0`, so `smtp.latency_ms = 0` even though
the latency spread of the sequence is 8ms.  The claim's "maximum minus
minimum latency across the probe sequence, truncated" therefore does not
describe `latency_ms` on such runs. -/
theorem C10_counterexample :
    (verify_email envC10 "a@b.co").smtp.latency_ms = some 0 ∧
    latencySpread (smtp_multi_probe envC10.tr envC10.d1 envC10.d2 "a@b.co") = 8 ∧
    (verify_email envC10 "a@b.co").smtp.latency_ms ≠
      some (latencySpread (smtp_multi_probe envC10.tr envC10.d1 envC10.d2 "a@b.co")) := by
  have hseq : smtp_multi_probe envC10.tr envC10.d1 envC10.d2 "a@b.co" = seqC10 := by
    decide
  have h2 : latencySpread seqC10 = 8 := by
    unfold latencySpread seqC10
    norm_num [List.filterMap_cons, listMax, listMin, List.foldl, pyInt, max_def, min_def]
  have h1 : (verify_email envC10 "a@b.co").smtp.latency_ms = some 0 := by decide
  refine ⟨h1, hseq ▸ h2, ?_⟩
  rw [h1, hseq, h2]
  decide

/-- When the analysis does not fall back (at least 3 non-null codes), the
`delta` field is exactly the truncated latency spread of the probe
sequence. -/
lemma analyze_delta_of_three_codes (env : Env) (email : String)
    (hc : 3 ≤ ((smtp_multi_probe env.tr env.d1 env.d2 email).filterMap
        (fun r => r.code)).length) :
    (analyze_entropy_and_catchall (smtp_multi_probe env.tr env.d1 env.d2 email)).delta =
      latencySpread (smtp_multi_probe env.tr env.d1 env.d2 email) := by
  cases h1 : env.tr.connect with
  | error e => simp [smtp_multi_probe, h1] at hc
  | ok u =>
    cases hq : env.tr.quit with
    | ok v =>
      cases c0 : (env.tr.rcpt 0 (env.d1 ++ "@" ++ afterFirstAt email)).code with
      | none =>
        simp [smtp_multi_probe, rcptRecord, h1, hq, c0, List.filterMap_cons,
          List.length_cons] at hc
        cases h2 : (env.tr.rcpt 1 email).code <;>
          cases h3 : (env.tr.rcpt 2 (env.d2 ++ "@" ++ afterFirstAt email)).code <;>
          simp [h2, h3] at hc
      | some v0 =>
        cases c1 : (env.tr.rcpt 1 email).code with
        | none =>
          simp [smtp_multi_probe, rcptRecord, h1, hq, c0, c1, List.filterMap_cons] at hc
          cases h3 : (env.tr.rcpt 2 (env.d2 ++ "@" ++ afterFirstAt email)).code <;>
            simp [h3] at hc
        | some v1 =>
          cases c2 : (env.tr.rcpt 2 (env.d2 ++ "@" ++ afterFirstAt email)).code with
          | none =>
            simp [smtp_multi_probe, rcptRecord, h1, hq, c0, c1, c2,
              List.filterMap_cons] at hc
          | some v2 =>
            simp [smtp_multi_probe, rcptRecord, h1, hq, c0, c1, c2,
              analyze_entropy_and_catchall, analyze_entropy_and_catchall_main,
              analyzeFrom, latencySpread, List.filterMap_cons]
    | error e =>
      cases c0 : (env.tr.rcpt 0 (env.d1 ++ "@" ++ afterFirstAt email)).code with
      | none =>
        simp [smtp_multi_probe, rcptRecord, h1, hq, c0, List.filterMap_cons,
          List.filterMap_append] at hc
        cases h2 : (env.tr.rcpt 1 email).code <;>
          cases h3 : (env.tr.rcpt 2 (env.d2 ++ "@" ++ afterFirstAt email)).code <;>
          simp [h2, h3] at hc
      | some v0 =>
        cases c1 : (env.tr.rcpt 1 email).code with
        | none =>
          simp [smtp_multi_probe, rcptRecord, h1, hq, c0, c1, List.filterMap_cons,
            List.filterMap_append] at hc
          cases h3 : (env.tr.rcpt 2 (env.d2 ++ "@" ++ afterFirstAt email)).code <;>
            simp [h3] at hc
        | some v1 =>
          cases c2 : (env.tr.rcpt 2 (env.d2 ++ "@" ++ afterFirstAt email)).code with
          | none =>
            simp [smtp_multi_probe, rcptRecord, h1, hq, c0, c1, c2,
              List.filterMap_cons, List.filterMap_append] at hc
          | some v2 =>
            simp [smtp_multi_probe, rcptRecord, h1, hq, c0, c1, c2,
              analyze_entropy_and_catchall, analyze_entropy_and_catchall_main,
              analyzeFrom, latencySpread, List.filterMap_cons, List.filterMap_append]

/-- C10 amended: once probing is reached and the probe sequence carries
at least 3 non-null codes (so the analysis does not fall back),
`smtp.latency_ms` equals the truncated latency spread (max − min) of the
whole sequence — not the real target's own probe latency. -/
theorem C10_latency_is_delta (env : Env) (email mx0 : String) (tl : List String)
    (hs : emailRegexMatch email = true)
    (hd : env.dns (afterFirstAt email) = .ok (mx0 :: tl))
    (hc : 3 ≤ ((smtp_multi_probe env.tr env.d1 env.d2 email).filterMap
        (fun r => r.code)).length) :
    (verify_email env email).smtp.latency_ms =
      some (latencySpread (smtp_multi_probe env.tr env.d1 env.d2 email)) := by
  have hdelta := analyze_delta_of_three_codes env email hc
  unfold verify_email verify_emailT
  simp only [hs, not_true_eq_false, if_false, hd]
  unfold finishVerify
  dsimp only
  split_ifs <;> simp [hdelta]

theorem C10_latency_is_delta_witness :
    (verify_email env250 "a@b.co").smtp.latency_ms =
      some (latencySpread (smtp_multi_probe env250.tr env250.d1 env250.d2 "a@b.co")) :=
  C10_latency_is_delta env250 "a@b.co" "mx.example.com" [] (by decide) rfl (by decide)

/-- C2 counterexample: a batch in which the very first candidate is
deliverable but a catch-all.  The claim says a deliverable-but-catch-all
result does not stop the batch; the coordinator's test is
`r.get("deliverable")` alone, so the batch stops and returns that
candidate as `found`. -/
theorem C2_counterexample :
    (find_email_for_person V0 "Ann Lee" "x.com" 10).map (fun o => o.status) =
      some "found" ∧
    ((find_email_for_person V0 "Ann Lee" "x.com" 10).bind (fun o => o.record)).map
      (fun r => r.email) = some "ann@x.com" ∧
    ((find_email_for_person V0 "Ann Lee" "x.com" 10).bind (fun o => o.record)).map
      (fun r => r.deliverable) = some true ∧
    ((find_email_for_person V0 "Ann Lee" "x.com" 10).bind (fun o => o.record)).map
      (fun r => r.details.is_catch_all) = some (some true) := by
  refine ⟨by decide, by decide, by decide, by decide⟩

/-- C2 amended: in the early-exit policy of `find_email_for_person`, the
personal phase returns `found` with the first completed result whose
`deliverable` field is true — regardless of its catch-all flag — and
later chunks are not dispatched once a winner is found. -/
theorem C2_first_deliverable_chosen (V : String → VerificationResult)
    (full_name dom : String) (bs : ℕ) (hbs : bs ≠ 0) (o : FindOutcome)
    (ho : find_email_for_person V full_name dom bs = some o)
    (hfound : o.status = "found") :
    ∃ cands, generate_patterns full_name (stripWWW (pyLower dom)) = some cands ∧
      ∃ r, o.record = some r ∧ r.deliverable = true ∧
        (cands.map V).find? (fun x => x.deliverable) = some r := by
  unfold find_email_for_person at ho
  dsimp only at ho
  cases hg : generate_patterns full_name (stripWWW (pyLower dom)) with
  | none =>
    rw [hg] at ho
    exact absurd ho (by simp)
  | some cands =>
    rw [hg] at ho
    dsimp only at ho
    refine ⟨cands, rfl, ?_⟩
    have hfst := findInChunks_fst V (chunkList bs cands) []
    rw [chunkList_flatten bs hbs cands] at hfst
    cases hf : findInChunks V (chunkList bs cands) [] with
    | mk fst tried =>
      rw [hf] at ho hfst
      cases fst with
      | some r =>
        dsimp only at ho hfst
        have ho2 : (⟨"found", some r.email, some "personal", some r, tried⟩ : FindOutcome)
            = o := by
          simpa using ho
        subst ho2
        refine ⟨r, rfl, ?_, hfst.symm⟩
        simpa using List.find?_some hfst.symm
      | none =>
        dsimp only at ho
        exfalso
        cases h2 : (findInChunks V (chunkList bs
            (GENERAL_ADDRESSES.map (fun g => g ++ "@" ++ stripWWW (pyLower dom)))) []).1 with
        | some r2 =>
          rw [h2] at ho
          have ho2 : (⟨"found_company", some r2.email, some "company", some r2,
              tried ++ GENERAL_ADDRESSES.map (fun g => g ++ "@" ++ stripWWW (pyLower dom))⟩ :
              FindOutcome) = o := by
            simpa using ho
          rw [← ho2] at hfound
          simp at hfound
        | none =>
          rw [h2] at ho
          have ho2 : (⟨"not_found", none, none, none,
              tried ++ GENERAL_ADDRESSES.map (fun g => g ++ "@" ++ stripWWW (pyLower dom))⟩ :
              FindOutcome) = o := by
            simpa using ho
          rw [← ho2] at hfound
          simp at hfound

theorem C2_first_deliverable_chosen_witness :
    ∃ cands, generate_patterns "Ann Lee" (stripWWW (pyLower "x.com")) = some cands ∧
      ∃ r, (FindOutcome.record ((find_email_for_person V0 "Ann Lee" "x.com" 10).get
          (by decide))) = some r ∧ r.deliverable = true ∧
        (cands.map V0).find? (fun x => x.deliverable) = some r :=
  C2_first_deliverable_chosen V0 "Ann Lee" "x.com" 10 (by decide) _
    (Option.some_get (by decide)).symm (by decide)

/-- C5: in the exhaustive-then-score policy (spec-modelled, as
`verify_batch` is absent from `src/`), the executable outlier test is
exactly "latency exceeds mean + 2·standard deviations" (the
square-root-free form is equivalent over ℝ), and the chosen result is
the first timing outlier, else the first deliverable result, else
none. -/
theorem C5_exhaustive_then_score (rs : List BatchRes) :
    (∀ r : BatchRes, isTimingOutlier rs r = true ↔
      ((batchMean rs : ℝ) + 2 * Real.sqrt ((batchVar rs : ℝ)) < (r.latency : ℝ))) ∧
    chooseBatchResult rs = (match rs.find? (isTimingOutlier rs) with
      | some r => some r
      | none => rs.find? (fun r => r.deliverable)) := by
  constructor
  · intro r
    have hv : (0:ℚ) ≤ batchVar rs := by
      unfold batchVar listMean
      apply div_nonneg
      · apply List.sum_nonneg
        intro x hx
        simp only [List.mem_map] at hx
        obtain ⟨y, hy, rfl⟩ := hx
        positivity
      · positivity
    have hvR : (0:ℝ) ≤ (batchVar rs : ℝ) := by exact_mod_cast hv
    have hsq : Real.sqrt (batchVar rs : ℝ) ^ 2 = (batchVar rs : ℝ) := Real.sq_sqrt hvR
    have hs0 : (0:ℝ) ≤ Real.sqrt (batchVar rs : ℝ) := Real.sqrt_nonneg _
    unfold isTimingOutlier
    simp only [Bool.and_eq_true, decide_eq_true_eq]
    constructor
    · rintro ⟨h1, h2⟩
      have h1R : (batchMean rs : ℝ) < (r.latency : ℝ) := by exact_mod_cast h1
      have h2R : 4 * (batchVar rs : ℝ) <
          ((r.latency : ℝ) - (batchMean rs : ℝ)) ^ 2 := by exact_mod_cast h2
      by_contra hcon
      push_neg at hcon
      have ht : (r.latency : ℝ) - (batchMean rs : ℝ) ≤
          2 * Real.sqrt (batchVar rs : ℝ) := by linarith
      have hb : ((r.latency : ℝ) - (batchMean rs : ℝ)) ^ 2 ≤
          (2 * Real.sqrt (batchVar rs : ℝ)) ^ 2 := by
        apply sq_le_sq' ?_ ht
        nlinarith
      nlinarith
    · intro h
      have h1R : (batchMean rs : ℝ) < (r.latency : ℝ) := by nlinarith
      have h2R : 4 * (batchVar rs : ℝ) <
          ((r.latency : ℝ) - (batchMean rs : ℝ)) ^ 2 := by
        nlinarith [mul_pos
          (by nlinarith :
            (0:ℝ) < (r.latency : ℝ) - (batchMean rs : ℝ) - 2 * Real.sqrt (batchVar rs : ℝ))
          (by nlinarith :
            (0:ℝ) < (r.latency : ℝ) - (batchMean rs : ℝ) + 2 * Real.sqrt (batchVar rs : ℝ))]
      exact ⟨by exact_mod_cast h1R, by exact_mod_cast h2R⟩
  · rfl

end OwlSquad
